import Mathlib

/-!
Verification of the MCP SQLite server's protocol transport layer
(`src/jsonrpc/handler.py`, `src/jsonrpc/models.py`, `src/mcp_handler.py`,
`src/mcp_session.py`, `src/mcp_transport.py`, `src/server.py`).

The Python code is shallowly embedded: Pydantic models become structures,
JSON values become an inductive type with integer numerics (no claim touches
floats), Python exceptions become `Except`, mutation of sessions and of the
session registry becomes explicit state passing, and `datetime.now()` becomes
an explicit `now : Nat` clock argument at each call site.  Asynchronous
handlers are embedded as plain functions: every claim below concerns
per-request input/output behaviour, and the Python code performs all
claim-relevant mutations without intervening suspension points.
-/

set_option autoImplicit false

/-- JSON values as produced by decoding a request body.  Numbers are embedded
as integers; no claim exercises floating point. -/
inductive Json where
  | null
  | bool (b : Bool)
  | num (n : Int)
  | str (s : String)
  | arr (elems : List Json)
  | obj (entries : List (String × Json))

/-- A JSON-RPC `id`: Pydantic type `Optional[Union[str, int]]`, with `none`
for the absent case kept outside (`Option JsonId`).  Keeping the two
constructors separate preserves the value's *kind* (string vs integer). -/
inductive JsonId where
  | str (v : String)
  | num (v : Int)
deriving DecidableEq

/-- `JSONRPCRequest` from `src/jsonrpc/models.py` (the constant protocol
marker field `jsonrpc : Literal["2.0"]` carries no information and is
omitted). -/
structure JSONRPCRequest where
  method : String
  params : Option Json := none
  id : Option JsonId := none

/-- `JSONRPCError` from `src/jsonrpc/models.py`. -/
structure JSONRPCError where
  code : Int
  message : String
  data : Option Json := none

/-- `JSONRPCResponse` from `src/jsonrpc/models.py` (constant `jsonrpc`
marker omitted as in `JSONRPCRequest`). -/
structure JSONRPCResponse where
  id : Option JsonId
  result : Option Json := none
  error : Option JSONRPCError := none

/-- Error codes from `ErrorCode` in `src/jsonrpc/models.py`. -/
def ErrorCode.PARSE_ERROR : Int := -32700

def ErrorCode.INVALID_REQUEST : Int := -32600

def ErrorCode.METHOD_NOT_FOUND : Int := -32601

def ErrorCode.INVALID_PARAMS : Int := -32602

def ErrorCode.INTERNAL_ERROR : Int := -32603

def ErrorCode.TOOL_NOT_FOUND : Int := -32001

def ErrorCode.TOOL_EXECUTION_ERROR : Int := -32002

def ErrorCode.DATABASE_ERROR : Int := -32003

/-- Python exceptions as observed by `JSONRPCHandler.handle_request`, which
distinguishes exactly `ValueError` from every other `Exception`. -/
inductive PyExc where
  | valueError (msg : String)
  | other (msg : String)

/-- A registered JSON-RPC method handler: takes the (defaulted) params and
either returns a JSON value or raises. -/
abbrev Handler := Json → Except PyExc Json

/-- Python truthiness for decoded JSON values (`if not x`, `x or y`). -/
def Json.isFalsy : Json → Bool
  | .null => true
  | .bool b => !b
  | .num n => n == 0
  | .str s => s == ""
  | .arr l => l.isEmpty
  | .obj l => l.isEmpty

/-- `request.params or {}`: the argument actually passed to the handler in
`JSONRPCHandler.handle_request` (a falsy `params` is replaced by `{}`). -/
def effParams (req : JSONRPCRequest) : Json :=
  match req.params with
  | none => Json.obj []
  | some p => if p.isFalsy then Json.obj [] else p

/-- `JSONRPCHandler.handle_request` from `src/jsonrpc/handler.py`.  The
method table `self.methods : Dict[str, Callable]` is embedded as an
association list.  The four outcomes: unknown method, handler raises
`ValueError`, handler raises any other exception, handler returns. -/
def JSONRPCHandler.handle_request (methods : List (String × Handler))
    (req : JSONRPCRequest) : JSONRPCResponse :=
  match List.lookup req.method methods with
  | none =>
      { id := req.id,
        error := some { code := ErrorCode.METHOD_NOT_FOUND,
                        message := "Method not found: " ++ req.method } }
  | some h =>
      match h (effParams req) with
      | .ok v => { id := req.id, result := some v }
      | .error (.valueError m) =>
          { id := req.id,
            error := some { code := ErrorCode.INVALID_PARAMS, message := m } }
      | .error (.other m) =>
          { id := req.id,
            error := some { code := ErrorCode.INTERNAL_ERROR,
                            message := "Internal error",
                            data := some (Json.obj [("details", Json.str m)]) } }

/-- C1: the dispatcher copies the request `id` into the response unchanged
(value and kind), in all four outcomes; absence (notification) is preserved. -/
theorem c1_dispatch_preserves_id (methods : List (String × Handler))
    (req : JSONRPCRequest) :
    (JSONRPCHandler.handle_request methods req).id = req.id := by
  unfold JSONRPCHandler.handle_request
  split
  · rfl
  · split <;> rfl

/-- C2: the dispatcher's error classification.  Unknown method gives
`-32601` with the method name in the message; a handler raising
`ValueError` gives `-32602` with the validation message; any other raised
exception gives `-32603` with a generic message and non-null `data`; a
normal return is carried as `result`. -/
theorem c2_dispatch_error_classification (methods : List (String × Handler))
    (req : JSONRPCRequest) :
    (List.lookup req.method methods = none →
        (JSONRPCHandler.handle_request methods req).error
            = some { code := -32601,
                     message := "Method not found: " ++ req.method, data := none }
          ∧ (JSONRPCHandler.handle_request methods req).result = none)
    ∧ (∀ h : Handler, List.lookup req.method methods = some h →
        (∀ msg, h (effParams req) = .error (.valueError msg) →
            (JSONRPCHandler.handle_request methods req).error
              = some { code := -32602, message := msg, data := none })
        ∧ (∀ msg, h (effParams req) = .error (.other msg) →
            ∃ d, (JSONRPCHandler.handle_request methods req).error
              = some { code := -32603, message := "Internal error", data := some d })
        ∧ (∀ v, h (effParams req) = .ok v →
            (JSONRPCHandler.handle_request methods req).result = some v
              ∧ (JSONRPCHandler.handle_request methods req).error = none)) := by
  constructor
  · intro hm
    simp [JSONRPCHandler.handle_request, hm, ErrorCode.METHOD_NOT_FOUND]
  · intro h hm
    refine ⟨?_, ?_, ?_⟩
    · intro msg hr
      simp [JSONRPCHandler.handle_request, hm, hr, ErrorCode.INVALID_PARAMS]
    · intro msg hr
      exact ⟨Json.obj [("details", Json.str msg)],
        by simp [JSONRPCHandler.handle_request, hm, hr, ErrorCode.INTERNAL_ERROR]⟩
    · intro v hr
      simp [JSONRPCHandler.handle_request, hm, hr]

/-- A method handler that always succeeds (exercises the success branch). -/
def demoOkH : Handler := fun _ => .ok (Json.str "done")

/-- A method handler that raises `ValueError` (invalid-params branch). -/
def demoBadH : Handler := fun _ => .error (.valueError "bad input")

/-- A method handler that raises a generic exception (internal-error branch). -/
def demoBoomH : Handler := fun _ => .error (.other "boom")

/-- A concrete method table exercising all dispatch branches. -/
def demoMethods : List (String × Handler) :=
  [("m/ok", demoOkH), ("m/bad", demoBadH), ("m/boom", demoBoomH)]

/-- Witness for C2: each branch of the classification at a concrete table
and concrete requests. -/
theorem c2_dispatch_error_classification_witness :
    ((JSONRPCHandler.handle_request demoMethods
          { method := "x/y", id := some (.num 1) }).error
        = some { code := -32601, message := "Method not found: " ++ "x/y",
                 data := none })
    ∧ ((JSONRPCHandler.handle_request demoMethods
          { method := "m/bad", id := some (.num 2) }).error
        = some { code := -32602, message := "bad input", data := none })
    ∧ (∃ d, (JSONRPCHandler.handle_request demoMethods
          { method := "m/boom", id := some (.num 3) }).error
        = some { code := -32603, message := "Internal error", data := some d })
    ∧ ((JSONRPCHandler.handle_request demoMethods
          { method := "m/ok", id := some (.num 4) }).result
        = some (Json.str "done")) :=
  ⟨((c2_dispatch_error_classification demoMethods
      { method := "x/y", id := some (.num 1) }).1 rfl).1,
   ((c2_dispatch_error_classification demoMethods
      { method := "m/bad", id := some (.num 2) }).2 demoBadH rfl).1 "bad input" rfl,
   ((c2_dispatch_error_classification demoMethods
      { method := "m/boom", id := some (.num 3) }).2 demoBoomH rfl).2.1 "boom" rfl,
   (((c2_dispatch_error_classification demoMethods
      { method := "m/ok", id := some (.num 4) }).2 demoOkH rfl).2.2
        (Json.str "done") rfl).1⟩

/-- Model of Python's `str()` applied to a decoded JSON value, as used by the
f-strings in `MCPHandler.execute_tool` and by `str(result)` in the server's
tool-call method.  Scalar cases follow Python exactly; container rendering is
abstracted to a placeholder, since no claim depends on it. -/
def pyStr : Json → String
  | .null => "None"
  | .bool true => "True"
  | .bool false => "False"
  | .num n => toString n
  | .str s => s
  | .arr _ => "<list>"
  | .obj _ => "<dict>"

/-- A registered MCP tool handler: `await handler(**arguments)` embedded as a
function of the argument object that returns or raises. -/
abbrev ToolHandler := Json → Except PyExc Json

/-- `MCPHandler.execute_tool` from `src/mcp_handler.py`: an unregistered
tool name raises `ValueError(f"Tool not found: {tool_name}")`; otherwise the
registered handler runs.  The tool table `self.tools : Dict[str, Callable]`
is keyed by strings, so a non-string `tool_name` is never found. -/
def MCPHandler.execute_tool (tools : List (String × ToolHandler))
    (tool_name : Json) (arguments : Json) : Except PyExc Json :=
  match tool_name with
  | .str s =>
      match List.lookup s tools with
      | none => .error (.valueError ("Tool not found: " ++ s))
      | some h => h arguments
  | other => .error (.valueError ("Tool not found: " ++ pyStr other))

/-- `params.get(key)` on the JSON-RPC params object. -/
def dictGet (j : Json) (k : String) : Option Json :=
  match j with
  | .obj kvs => List.lookup k kvs
  | _ => none

/-- The `tools/call` JSON-RPC method from `register_jsonrpc_methods` in
`src/server.py`: reads `name` (falsy → `ValueError("Tool name is required")`)
and `arguments` (defaulting to `{}`), runs the tool, and wraps the result as
text content. -/
def Server.tools_call (tools : List (String × ToolHandler)) (params : Json) :
    Except PyExc Json :=
  let name := (dictGet params "name").getD Json.null
  let arguments := (dictGet params "arguments").getD (Json.obj [])
  if name.isFalsy then .error (.valueError "Tool name is required")
  else
    match MCPHandler.execute_tool tools name arguments with
    | .error e => .error e
    | .ok result =>
        .ok (Json.obj [("content",
          Json.arr [Json.obj [("type", Json.str "text"),
                              ("text", Json.str (pyStr result))]])])

/-- An empty tool table (no tool is registered). -/
def noTools : List (String × ToolHandler) := []

/-- A method table whose `tools/call` is the server's tool-call method over
an empty tool table. -/
def c3Methods : List (String × Handler) :=
  [("tools/call", Server.tools_call noTools)]

/-- A `tools/call` request naming a tool that is not registered. -/
def c3Req : JSONRPCRequest :=
  { method := "tools/call",
    params := some (Json.obj [("name", Json.str "nonexistent_tool"),
                              ("arguments", Json.obj [])]),
    id := some (.num 5) }

/-- Counterexample to C3: invoking `tools/call` on an unregistered tool name
yields error code `-32602`, not the claimed `-32001`; the taxonomy constant
`TOOL_NOT_FOUND = -32001` is defined in `src/jsonrpc/models.py` but never
emitted on this path, because `execute_tool` raises `ValueError` and the
dispatcher classifies every `ValueError` as invalid params. -/
theorem c3_unknown_tool_code_counterexample :
    ((JSONRPCHandler.handle_request c3Methods c3Req).error).map JSONRPCError.code
        = some (-32602)
    ∧ ((JSONRPCHandler.handle_request c3Methods c3Req).error).map JSONRPCError.code
        ≠ some (-32001) := by
  refine ⟨rfl, ?_⟩
  intro hcontra
  rw [show ((JSONRPCHandler.handle_request c3Methods c3Req).error).map
        JSONRPCError.code = some (-32602) from rfl] at hcontra
  simp at hcontra

/-- C3 (amended): dispatching `tools/call` with a `name` that is not a
registered tool yields error code `-32602` with message
`"Tool not found: <name>"` — the unknown-tool `ValueError` is classified as
invalid params by the dispatcher; the taxonomy code `-32001` is never
produced on this path. -/
theorem c3_unknown_tool_code_amended (methods : List (String × Handler))
    (tools : List (String × ToolHandler)) (name : String) (args : Json)
    (i : Option JsonId) :
    name ≠ "" →
    List.lookup name tools = none →
    List.lookup "tools/call" methods = some (Server.tools_call tools) →
      JSONRPCHandler.handle_request methods
          { method := "tools/call",
            params := some (Json.obj [("name", Json.str name),
                                      ("arguments", args)]),
            id := i }
        = { id := i,
            error := some { code := -32602,
                            message := "Tool not found: " ++ name,
                            data := none } } := by
  intro hname htool hmeth
  have hfalsy : (Json.str name).isFalsy = false := by
    simp [Json.isFalsy, hname]
  simp [JSONRPCHandler.handle_request, hmeth, Server.tools_call, effParams,
    Json.isFalsy, dictGet, List.lookup, hfalsy, MCPHandler.execute_tool,
    htool, ErrorCode.INVALID_PARAMS, hname]

/-- Witness for C3 (amended): concrete unregistered tool name through the
dispatcher. -/
theorem c3_unknown_tool_code_amended_witness :
    JSONRPCHandler.handle_request c3Methods c3Req
      = { id := some (.num 5),
          error := some { code := -32602,
                          message := "Tool not found: " ++ "nonexistent_tool",
                          data := none } } :=
  c3_unknown_tool_code_amended c3Methods noTools "nonexistent_tool"
    (Json.obj []) (some (.num 5)) (by decide) rfl rfl

/-- `MCPMessage` from `src/mcp_session.py`: one entry of the SSE replay
log. -/
structure MCPMessage where
  id : String
  data : String
  event : Option String := none
deriving DecidableEq

/-- `MCPSession` from `src/mcp_session.py`.  Timestamps are an abstract
monotone clock (`Nat`); the `asyncio.Queue` handoff channel is embedded as
the list of messages put and not yet taken. -/
structure MCPSession where
  session_id : String
  created_at : Nat
  last_activity : Nat
  message_queue : List MCPMessage := []
  messages_sent : List MCPMessage := []
  last_event_id : Nat := 0
deriving DecidableEq

/-- A freshly constructed `MCPSession(session_id=sid)` at clock `now`: the
dataclass defaults give `created_at = last_activity = now`, empty queue and
log, counter `0`. -/
def MCPSession.fresh (sid : String) (now : Nat) : MCPSession :=
  { session_id := sid, created_at := now, last_activity := now }

/-- `MCPSession.get_next_event_id`: increments the counter and returns its
decimal string (state-transformer embedding of the mutation of
`self.last_event_id`). -/
def MCPSession.get_next_event_id (s : MCPSession) : MCPSession × String :=
  ({ s with last_event_id := s.last_event_id + 1 },
   toString (s.last_event_id + 1))

/-- `MCPSession.queue_message`: allocates the next event id, appends the
message to the replay log and to the handoff queue, and refreshes
`last_activity` (the ambient `datetime.now()` is the `now` argument). -/
def MCPSession.queue_message (s : MCPSession) (data : String)
    (event : Option String) (now : Nat) : MCPSession :=
  let next := s.get_next_event_id
  let msg : MCPMessage := { id := next.2, data := data, event := event }
  { next.1 with
      messages_sent := next.1.messages_sent ++ [msg],
      message_queue := next.1.message_queue ++ [msg],
      last_activity := now }

/-- ASCII whitespace stripped by Python's `int(str)` conversion. -/
def isPySpace (c : Char) : Bool :=
  c == ' ' || c == '\t' || c == '\n' || c == '\r' || c == '\x0b' || c == '\x0c'

/-- Numeric value of a decimal digit character. -/
def digitVal (c : Char) : Nat := c.toNat - 48

/-- Continuation of the digit grammar of Python `int()`: after the first
digit, digits follow, optionally separated by single underscores. -/
def pyDigitsGo (acc : Nat) : List Char → Option Nat
  | [] => some acc
  | '_' :: c :: cs =>
      if c.isDigit then pyDigitsGo (acc * 10 + digitVal c) cs else none
  | ['_'] => none
  | c :: cs =>
      if c.isDigit then pyDigitsGo (acc * 10 + digitVal c) cs else none

/-- The digit part of Python `int()`: a nonempty digit sequence with
optional single underscore separators. -/
def pyDigits : List Char → Option Nat
  | [] => none
  | c :: cs => if c.isDigit then pyDigitsGo (digitVal c) cs else none

/-- Model of Python's `int(s)` on a string: strip whitespace, optional
sign, decimal digits (ASCII model; `none` is a raised `ValueError`). -/
def pyInt (s : String) : Option Int :=
  let cs := ((s.data.dropWhile isPySpace).reverse.dropWhile isPySpace).reverse
  match cs with
  | '+' :: rest => (pyDigits rest).map Int.ofNat
  | '-' :: rest => (pyDigits rest).map (fun n => -(n : Int))
  | rest => (pyDigits rest).map Int.ofNat

/-- `MCPSession.get_messages_after` from `src/mcp_session.py`: parse the
marker with `int(...)`; on success filter the replay log by
`int(msg.id) > last_id`; any parse failure (of the marker or of a logged
id inside the comprehension) is caught and yields `[]`. -/
def MCPSession.get_messages_after (s : MCPSession) (last_event_id : String) :
    List MCPMessage :=
  match pyInt last_event_id with
  | none => []
  | some lastId =>
      if s.messages_sent.all (fun m => (pyInt m.id).isSome) then
        s.messages_sent.filter (fun m =>
          match pyInt m.id with
          | some v => decide (lastId < v)
          | none => false)
      else []

/-- State-transformer form of `MCPSession.get_messages_after`: the method
reads `messages_sent` and mutates nothing, so the session comes back
unchanged; `now` models the ambient clock, which the method never reads. -/
def MCPSession.get_messages_after_st (s : MCPSession) (last_event_id : String)
    (now : Nat) : MCPSession × List MCPMessage :=
  (s, s.get_messages_after last_event_id)

/-- Folding a batch of `queue_message` calls over a session, in order: the
first component of each triple is the payload, then the event tag, then the
clock value at that call. -/
def queueBatch (s : MCPSession) (ops : List (String × Option String × Nat)) :
    MCPSession :=
  ops.foldl (fun t op => t.queue_message op.1 op.2.1 op.2.2) s

/-- One `queue_message` call: effect on the replay log and the counter. -/
theorem queue_message_log (s : MCPSession) (data : String)
    (event : Option String) (now : Nat) :
    ((s.queue_message data event now).messages_sent
        = s.messages_sent
            ++ [{ id := toString (s.last_event_id + 1), data := data,
                  event := event }])
    ∧ (s.queue_message data event now).last_event_id = s.last_event_id + 1 := by
  simp [MCPSession.queue_message, MCPSession.get_next_event_id]

/-- A batch of `queue_message` calls over any session grows the replay log
by messages whose ids are the decimal strings of the successive counter
values. -/
theorem queue_fold_log (ops : List (String × Option String × Nat)) :
    ∀ s : MCPSession,
      ((queueBatch s ops).messages_sent.map MCPMessage.id
        = s.messages_sent.map MCPMessage.id
            ++ (List.range ops.length).map
                 (fun k => toString (s.last_event_id + 1 + k)))
      ∧ (queueBatch s ops).last_event_id = s.last_event_id + ops.length := by
  induction ops with
  | nil => intro s; simp [queueBatch]
  | cons op rest ih =>
      intro s
      have h := ih (s.queue_message op.1 op.2.1 op.2.2)
      have hq := queue_message_log s op.1 op.2.1 op.2.2
      have hstep : queueBatch s (op :: rest)
          = queueBatch (s.queue_message op.1 op.2.1 op.2.2) rest := rfl
      constructor
      · rw [hstep, h.1, hq.1]
        have hfun : (fun k => toString (s.last_event_id + 1 + 1 + k))
            = (fun k => toString (s.last_event_id + 1 + k)) ∘ Nat.succ := by
          funext k
          exact congrArg toString (by omega)
        simp [hq.2, List.range_succ_eq_map, hfun, List.map_map]
      · rw [hstep, h.2, hq.2]
        simp
        omega

/-- C4: on a fresh session, the n-th queued message gets event id
`toString n`; the whole replay log's ids are the decimal strings of
`1, 2, ..., len`, strictly increasing from 1 (so the first three queued
messages receive ids `"1"`, `"2"`, `"3"` in order).  Each allocation and
append in `queue_message` happens without an intervening asyncio suspension
point, so interleaved callers observe the same per-message atomicity that
this sequential fold expresses. -/
theorem c4_event_ids_decimal (sid : String) (t0 : Nat)
    (ops : List (String × Option String × Nat)) :
    ((queueBatch (MCPSession.fresh sid t0) ops).messages_sent.map MCPMessage.id
        = (List.range ops.length).map (fun k => toString (k + 1)))
    ∧ (queueBatch (MCPSession.fresh sid t0) ops).last_event_id = ops.length := by
  have h := queue_fold_log ops (MCPSession.fresh sid t0)
  constructor
  · rw [h.1]
    have hfun : (fun k => toString ((MCPSession.fresh sid t0).last_event_id + 1 + k))
        = fun k => toString (k + 1) := by
      funext k
      exact congrArg toString (by simp [MCPSession.fresh]; omega)
    simp [MCPSession.fresh, hfun]
    intro a _
    exact congrArg toString (by omega)
  · rw [h.2]
    simp [MCPSession.fresh]

/-- C5: replay lookup.  If the marker parses as an integer `m` (and, as in
every reachable session state, each logged id is itself numeric), the result
is exactly the filter of the replay log by event id strictly greater than
`m`, a sublist of the log (so log order is preserved); if the marker does
not parse, the result is empty — the embedding is a total function, so no
exception escapes. -/
theorem c5_messages_after_filter (s : MCPSession) (marker : String) :
    (∀ m : Int, pyInt marker = some m →
      (∀ msg ∈ s.messages_sent, (pyInt msg.id).isSome) →
        (s.get_messages_after marker
            = s.messages_sent.filter (fun msg =>
                match pyInt msg.id with
                | some v => decide (m < v)
                | none => false))
          ∧ List.Sublist (s.get_messages_after marker) s.messages_sent)
    ∧ (pyInt marker = none → s.get_messages_after marker = []) := by
  constructor
  · intro m hm hall
    have hcond : s.messages_sent.all (fun msg => (pyInt msg.id).isSome) = true := by
      rw [List.all_eq_true]
      intro msg hmsg
      simp [hall msg hmsg]
    constructor
    · simp [MCPSession.get_messages_after, hm, hcond]
    · simp only [MCPSession.get_messages_after, hm, hcond, if_true]
      exact List.filter_sublist _
  · intro hm
    simp [MCPSession.get_messages_after, hm]

/-- A session with three queued messages (event ids "1", "2", "3"). -/
def demoSession3 : MCPSession :=
  (((MCPSession.fresh "sess" 0).queue_message "a" none 1).queue_message
      "b" none 2).queue_message "c" none 3

/-- Witness for C5: marker `"0"` returns all three logged messages of a
session holding messages 1..3, and a non-numeric marker returns `[]`. -/
theorem c5_messages_after_filter_witness :
    (demoSession3.get_messages_after "0" = demoSession3.messages_sent)
    ∧ (demoSession3.get_messages_after "not-a-number" = []) := by
  constructor
  · have h := ((c5_messages_after_filter demoSession3 "0").1 0 (by decide)
      (by decide)).1
    rw [h]
    decide
  · exact (c5_messages_after_filter demoSession3 "not-a-number").2 (by decide)

/-- `MCPSessionManager` from `src/mcp_session.py`.  The `sessions` dict is
an association list; `session_timeout` is kept in minutes.  The background
cleanup task holds no claim-relevant state and is omitted. -/
structure MCPSessionManager where
  sessions : List (String × MCPSession) := []
  session_timeout : Nat := 30

/-- Python dict assignment `d[k] = v`: replace the binding if the key is
present, otherwise append it. -/
def listSet (l : List (String × MCPSession)) (k : String) (v : MCPSession) :
    List (String × MCPSession) :=
  match l with
  | [] => [(k, v)]
  | (k', v') :: rest =>
      if k' = k then (k, v) :: rest else (k', v') :: listSet rest k v

/-- `MCPSessionManager.create_session`: a fresh session under a fresh
opaque id (the `uuid4()` value is the `sid` argument). -/
def MCPSessionManager.create_session (mgr : MCPSessionManager) (sid : String)
    (now : Nat) : MCPSessionManager × MCPSession :=
  let s := MCPSession.fresh sid now
  ({ mgr with sessions := listSet mgr.sessions sid s }, s)

/-- `MCPSessionManager.get_session`: dictionary lookup; on a hit the stored
session's `last_activity` is set to the current time (the Python code
mutates the shared session object, so the registry sees the refresh too). -/
def MCPSessionManager.get_session (mgr : MCPSessionManager) (sid : String)
    (now : Nat) : MCPSessionManager × Option MCPSession :=
  match List.lookup sid mgr.sessions with
  | none => (mgr, none)
  | some s =>
      let s' := { s with last_activity := now }
      ({ mgr with sessions := listSet mgr.sessions sid s' }, some s')

/-- Counterexample to C9: `get_messages_after` does **not** refresh
`last_activity` — on a fresh session created at time 0 and read at time 5,
the timestamp stays 0. -/
theorem c9_touch_counterexample :
    (((MCPSession.fresh "sess" 0).get_messages_after_st "0" 5).1.last_activity = 0)
    ∧ (((MCPSession.fresh "sess" 0).get_messages_after_st "0" 5).1.last_activity
        ≠ 5) := by
  constructor
  · rfl
  · decide

/-- C9 (amended): session lookup (`get_session`) and message enqueue
(`queue_message`) refresh `last_activity` to the current time, but the
replay-log read (`get_messages_after`) mutates nothing — it leaves the
session, including `last_activity`, unchanged. -/
theorem c9_touch_amended :
    (∀ (mgr : MCPSessionManager) (sid : String) (s : MCPSession) (now : Nat),
        List.lookup sid mgr.sessions = some s →
          (mgr.get_session sid now).2 = some { s with last_activity := now })
    ∧ (∀ (s : MCPSession) (data : String) (event : Option String) (now : Nat),
        (s.queue_message data event now).last_activity = now)
    ∧ (∀ (s : MCPSession) (marker : String) (now : Nat),
        (s.get_messages_after_st marker now).1 = s) := by
  refine ⟨?_, ?_, ?_⟩
  · intro mgr sid s now hs
    simp [MCPSessionManager.get_session, hs]
  · intro s data event now
    simp [MCPSession.queue_message, MCPSession.get_next_event_id]
  · intro s marker now
    rfl

/-- A one-session registry for the C9 witness. -/
def demoManager : MCPSessionManager :=
  { sessions := [("sess", MCPSession.fresh "sess" 0)] }

/-- Witness for C9 (amended): concrete lookup refresh, enqueue refresh, and
unchanged session on a replay-log read. -/
theorem c9_touch_amended_witness :
    ((demoManager.get_session "sess" 9).2
        = some { MCPSession.fresh "sess" 0 with last_activity := 9 })
    ∧ (((MCPSession.fresh "sess" 0).queue_message "x" none 7).last_activity = 7)
    ∧ (((MCPSession.fresh "sess" 0).get_messages_after_st "0" 5).1
        = MCPSession.fresh "sess" 0) :=
  ⟨c9_touch_amended.1 demoManager "sess" (MCPSession.fresh "sess" 0) 9 rfl,
   c9_touch_amended.2.1 (MCPSession.fresh "sess" 0) "x" none 7,
   c9_touch_amended.2.2 (MCPSession.fresh "sess" 0) "0" 5⟩

/-- `MCP_PROTOCOL_VERSION` from `src/mcp_transport.py`. -/
def MCP_PROTOCOL_VERSION : String := "2024-11-05"

/-- The HTTP response produced by the POST endpoint: status code, optional
synchronous JSON body (serialization of the response envelope is
abstracted), and response headers as the literal dict from the source. -/
structure PostResponse where
  status : Nat
  body : Option JSONRPCResponse
  headers : List (String × String)

/-- `MCPTransport.handle_post_request` from `src/mcp_transport.py`.
Session resolution: a truthy `Mcp-Session-Id` header is looked up
(refreshing activity), an unknown or absent id gets a freshly created
session (`uuid4()` modeled by `newSid`).  Response shaping: `initialize`
and any request with an `id` get a 200 JSON body; a notification (no `id`)
gets 202 with no body; all carry the session and protocol-version headers.
The `Mcp-Protocol-Version` request header only produces a log line and is
not an argument. -/
def MCPTransport.handle_post_request (methods : List (String × Handler))
    (mgr : MCPSessionManager) (sessionIdHdr : Option String)
    (req : JSONRPCRequest) (newSid : String) (now : Nat) :
    PostResponse × MCPSessionManager :=
  let resolved : MCPSessionManager × MCPSession :=
    match sessionIdHdr with
    | some sid =>
        if sid = "" then mgr.create_session newSid now
        else
          match mgr.get_session sid now with
          | (m1, some s) => (m1, s)
          | (m1, none) => m1.create_session newSid now
    | none => mgr.create_session newSid now
  let response := JSONRPCHandler.handle_request methods req
  let hdrs := [("Mcp-Session-Id", resolved.2.session_id),
               ("Mcp-Protocol-Version", MCP_PROTOCOL_VERSION)]
  if req.method = "initialize" then
    ({ status := 200, body := some response, headers := hdrs }, resolved.1)
  else if req.id.isSome then
    ({ status := 200, body := some response, headers := hdrs }, resolved.1)
  else
    ({ status := 202, body := none, headers := hdrs }, resolved.1)

/-- C7: POST response shaping.  A request with an `id` (or the
`initialize` method, which always answers synchronously) yields HTTP 200
with a JSON body; a notification (no `id`) yields HTTP 202 with no body;
both carry the `Mcp-Session-Id` and `Mcp-Protocol-Version` headers. -/
theorem c7_post_status_shaping (methods : List (String × Handler))
    (mgr : MCPSessionManager) (sessionIdHdr : Option String)
    (req : JSONRPCRequest) (newSid : String) (now : Nat) :
    ((req.id ≠ none ∨ req.method = "initialize") →
        ((MCPTransport.handle_post_request methods mgr sessionIdHdr req
            newSid now).1.status = 200)
        ∧ ((MCPTransport.handle_post_request methods mgr sessionIdHdr req
            newSid now).1.body
          = some (JSONRPCHandler.handle_request methods req))
        ∧ (∃ sid, (MCPTransport.handle_post_request methods mgr sessionIdHdr req
            newSid now).1.headers
          = [("Mcp-Session-Id", sid),
             ("Mcp-Protocol-Version", MCP_PROTOCOL_VERSION)]))
    ∧ ((req.id = none ∧ req.method ≠ "initialize") →
        ((MCPTransport.handle_post_request methods mgr sessionIdHdr req
            newSid now).1.status = 202)
        ∧ ((MCPTransport.handle_post_request methods mgr sessionIdHdr req
            newSid now).1.body = none)
        ∧ (∃ sid, (MCPTransport.handle_post_request methods mgr sessionIdHdr req
            newSid now).1.headers
          = [("Mcp-Session-Id", sid),
             ("Mcp-Protocol-Version", MCP_PROTOCOL_VERSION)])) := by
  constructor
  · intro hid
    by_cases hinit : req.method = "initialize"
    · refine ⟨?_, ?_, ?_⟩ <;>
        simp [MCPTransport.handle_post_request, hinit]
    · have hsome : req.id.isSome := by
        rcases hid with h | h
        · exact Option.isSome_iff_ne_none.mpr h
        · exact absurd h hinit
      refine ⟨?_, ?_, ?_⟩ <;>
        simp [MCPTransport.handle_post_request, hinit, hsome]
  · rintro ⟨hid, hinit⟩
    have hnone : req.id.isSome = false := by simp [hid]
    refine ⟨?_, ?_, ?_⟩ <;>
      simp [MCPTransport.handle_post_request, hinit, hnone]

/-- Witness for C7: a concrete request with an `id` gets 200 with a body;
a concrete notification gets 202 with no body; both carry the two headers. -/
theorem c7_post_status_shaping_witness :
    ((MCPTransport.handle_post_request demoMethods { } none
        { method := "m/ok", id := some (.num 1) } "fresh-id" 0).1.status = 200)
    ∧ ((MCPTransport.handle_post_request demoMethods { } none
        { method := "m/ok", id := some (.num 1) } "fresh-id" 0).1.body
          = some (JSONRPCHandler.handle_request demoMethods
              { method := "m/ok", id := some (.num 1) }))
    ∧ ((MCPTransport.handle_post_request demoMethods { } none
        { method := "notifications/x" } "fresh-id" 0).1.status = 202)
    ∧ ((MCPTransport.handle_post_request demoMethods { } none
        { method := "notifications/x" } "fresh-id" 0).1.body = none) := by
  have h1 := (c7_post_status_shaping demoMethods { } none
      { method := "m/ok", id := some (.num 1) } "fresh-id" 0).1
    (Or.inl (by simp))
  have h2 := (c7_post_status_shaping demoMethods { } none
      { method := "notifications/x" } "fresh-id" 0).2
    ⟨rfl, by simp⟩
  exact ⟨h1.1, h1.2.1, h2.1, h2.2.1⟩

/-- One server-sent event as yielded by the stream generator: payload,
event tag, and event id (keep-alive comments carry none of these and are
not part of the deterministic head modeled here). -/
structure SSEEvent where
  data : String
  event : String
  id : String
deriving DecidableEq

/-- `msg.event or "message"`: the tag actually emitted (Python `or`
replaces a falsy tag — `None` or the empty string — by `"message"`). -/
def orMessage : Option String → String
  | some s => if s = "" then "message" else s
  | none => "message"

/-- The serialized payload of the synthetic connection-confirmation event
(`json.dumps` output from `src/mcp_transport.py`). -/
def connectionData : String :=
  "\x7b\"type\": \"connection\", \"message\": \"SSE stream established\"\x7d"

/-- The deterministic head of `event_generator` in
`MCPTransport.handle_get_request`, up to and including the synthetic
connection event: first, if a truthy resumption marker is present, every
message from `get_messages_after(marker)` in log order; then one
connection event consuming the next event id.  Afterwards the generator
blocks on the handoff queue, so everything it emits later comes after this
head.  Returns the session as mutated by `get_next_event_id`. -/
def MCPSession.streamHead (s : MCPSession) (lastEventIdHdr : Option String) :
    List SSEEvent × MCPSession :=
  let missed := match lastEventIdHdr with
    | some m => if m = "" then [] else s.get_messages_after m
    | none => []
  let replayed := missed.map (fun m =>
    { data := m.data, event := orMessage m.event, id := m.id : SSEEvent })
  let next := s.get_next_event_id
  (replayed ++ [{ data := connectionData, event := "message", id := next.2 }],
   next.1)

/-- The HTTP-level outcome of the streaming GET endpoint: an early
rejection with a status and JSON diagnostic body, or an opened stream with
its deterministic head and response headers. -/
inductive GetResult where
  | reject (status : Nat) (body : Json)
  | stream (head : List SSEEvent) (headers : List (String × String))

/-- `MCPTransport.handle_get_request` from `src/mcp_transport.py`: a falsy
`Mcp-Session-Id` header is rejected with 400, an unknown session id with
404; otherwise the session is fetched (refreshing activity) and the SSE
stream is opened, its head given by `streamHead`; the session mutated by
the generator is stored back (the Python generator mutates the shared
object). -/
def MCPTransport.handle_get_request (mgr : MCPSessionManager)
    (sessionIdHdr lastEventIdHdr : Option String) (now : Nat) :
    GetResult × MCPSessionManager :=
  match sessionIdHdr with
  | none =>
      (.reject 400 (Json.obj
        [("error", Json.str "No session ID provided. Initialize first.")]), mgr)
  | some sid =>
      if sid = "" then
        (.reject 400 (Json.obj
          [("error", Json.str "No session ID provided. Initialize first.")]),
         mgr)
      else
        match mgr.get_session sid now with
        | (m1, none) =>
            (.reject 404 (Json.obj [("error", Json.str "Invalid session ID")]),
             m1)
        | (m1, some s) =>
            let pr := s.streamHead lastEventIdHdr
            (.stream pr.1
               [("Mcp-Session-Id", s.session_id),
                ("Mcp-Protocol-Version", MCP_PROTOCOL_VERSION)],
             { m1 with sessions := listSet m1.sessions sid pr.2 })

/-- C8: GET gatekeeping.  No session header: 400 with a diagnostic body;
a supplied but unknown session id: 404; a known session id: the stream is
opened (and only then). -/
theorem c8_get_gatekeeping (mgr : MCPSessionManager) (sid : String)
    (lastEventIdHdr : Option String) (now : Nat) :
    ((MCPTransport.handle_get_request mgr none lastEventIdHdr now).1
        = .reject 400 (Json.obj
            [("error", Json.str "No session ID provided. Initialize first.")]))
    ∧ (sid ≠ "" → List.lookup sid mgr.sessions = none →
        (MCPTransport.handle_get_request mgr (some sid) lastEventIdHdr now).1
          = .reject 404 (Json.obj [("error", Json.str "Invalid session ID")]))
    ∧ (∀ s : MCPSession, sid ≠ "" → List.lookup sid mgr.sessions = some s →
        ∃ head hdrs,
          (MCPTransport.handle_get_request mgr (some sid) lastEventIdHdr now).1
            = .stream head hdrs) := by
  refine ⟨rfl, ?_, ?_⟩
  · intro hsid hlook
    have hget : mgr.get_session sid now = (mgr, none) := by
      simp [MCPSessionManager.get_session, hlook]
    simp [MCPTransport.handle_get_request, hsid, hget]
  · intro s hsid hlook
    refine ⟨(MCPSession.streamHead ({ s with last_activity := now })
        lastEventIdHdr).1,
      [("Mcp-Session-Id", s.session_id),
       ("Mcp-Protocol-Version", MCP_PROTOCOL_VERSION)], ?_⟩
    simp [MCPTransport.handle_get_request, hsid,
      MCPSessionManager.get_session, hlook]

/-- Witness for C8: concrete registry with one session — absent header
gives 400, unknown id gives 404, the known id opens a stream. -/
theorem c8_get_gatekeeping_witness :
    ((MCPTransport.handle_get_request demoManager none none 3).1
        = .reject 400 (Json.obj
            [("error", Json.str "No session ID provided. Initialize first.")]))
    ∧ ((MCPTransport.handle_get_request demoManager (some "ghost") none 3).1
        = .reject 404 (Json.obj [("error", Json.str "Invalid session ID")]))
    ∧ (∃ head hdrs,
        (MCPTransport.handle_get_request demoManager (some "sess") none 3).1
          = .stream head hdrs) :=
  ⟨(c8_get_gatekeeping demoManager "ghost" none 3).1,
   (c8_get_gatekeeping demoManager "ghost" none 3).2.1 (by decide) rfl,
   (c8_get_gatekeeping demoManager "sess" none 3).2.2
     (MCPSession.fresh "sess" 0) (by decide) rfl⟩

/-- The integer value of a logged message's event id (0 if unparsable;
every reachable log id parses). -/
def msgIdVal (m : MCPMessage) : Int := (pyInt m.id).getD 0

/-- Any ordering that holds pairwise along the replay log survives the
replay lookup, which only filters the log. -/
theorem get_messages_after_pairwise (s : MCPSession) (marker : String)
    (R : MCPMessage → MCPMessage → Prop)
    (h : List.Pairwise R s.messages_sent) :
    List.Pairwise R (s.get_messages_after marker) := by
  unfold MCPSession.get_messages_after
  split
  · exact List.Pairwise.nil
  · split
    · exact List.Pairwise.sublist (List.filter_sublist _) h
    · exact List.Pairwise.nil

/-- C6: opening the streaming GET on a known session with a truthy
resumption marker emits, as the deterministic head of the stream, exactly
the logged messages with event id greater than the marker — in log order,
which is ascending event-id order whenever the log is ascending, as every
reachable log is — followed by the synthetic connection event, before
anything the generator later takes from the live queue. -/
theorem c6_stream_replay_head (mgr : MCPSessionManager) (sid : String)
    (s : MCPSession) (marker : String) (now : Nat) :
    sid ≠ "" →
    List.lookup sid mgr.sessions = some s →
    marker ≠ "" →
    List.Pairwise (fun a b => msgIdVal a < msgIdVal b) s.messages_sent →
      ((MCPTransport.handle_get_request mgr (some sid) (some marker) now).1
          = .stream
              ((s.get_messages_after marker).map (fun m =>
                  { data := m.data, event := orMessage m.event, id := m.id })
                ++ [{ data := connectionData, event := "message",
                      id := toString (s.last_event_id + 1) }])
              [("Mcp-Session-Id", s.session_id),
               ("Mcp-Protocol-Version", MCP_PROTOCOL_VERSION)])
      ∧ List.Pairwise (fun a b => msgIdVal a < msgIdVal b)
          (s.get_messages_after marker) := by
  intro hsid hlook hmarker hsorted
  constructor
  · simp [MCPTransport.handle_get_request, hsid,
      MCPSessionManager.get_session, hlook, MCPSession.streamHead,
      MCPSession.get_next_event_id, hmarker, MCPSession.get_messages_after]
  · exact get_messages_after_pairwise s marker _ hsorted

/-- A session holding message A (event id 1) and message B (event id 2). -/
def sessionAB : MCPSession :=
  ((MCPSession.fresh "S" 0).queue_message "A" none 1).queue_message "B" none 2

/-- A registry holding exactly `sessionAB` under id `"S"`. -/
def managerAB : MCPSessionManager := { sessions := [("S", sessionAB)] }

/-- Witness for C6: on the session holding A (id 1) and B (id 2), a GET
with `Last-Event-Id: 1` replays exactly B and then the connection event. -/
theorem c6_stream_replay_head_witness :
    (MCPTransport.handle_get_request managerAB (some "S") (some "1") 9).1
      = .stream
          [{ data := "B", event := "message", id := "2" },
           { data := connectionData, event := "message", id := "3" }]
          [("Mcp-Session-Id", "S"),
           ("Mcp-Protocol-Version", MCP_PROTOCOL_VERSION)] := by
  have h := (c6_stream_replay_head managerAB "S" sessionAB "1" 9
      (by decide) rfl (by decide) (by decide)).1
  rw [h]
  rfl

/-- C10: the synthetic connection event consumes the session's next event
id but is never appended to the replay log; hence replay can only ever
return messages that were already in the log before the stream opened (a
reconnecting client never gets the connection event replayed), and log
event ids need not be contiguous once streams have opened. -/
theorem c10_connection_event_not_logged (s : MCPSession)
    (hdr : Option String) :
    ((s.streamHead hdr).2.last_event_id = s.last_event_id + 1)
    ∧ ((s.streamHead hdr).2.messages_sent = s.messages_sent)
    ∧ (∀ (marker : String) (m : MCPMessage),
        m ∈ (s.streamHead hdr).2.get_messages_after marker →
          m ∈ s.messages_sent) := by
  refine ⟨rfl, rfl, ?_⟩
  intro marker m hm
  have hsent : (s.streamHead hdr).2.messages_sent = s.messages_sent := rfl
  unfold MCPSession.get_messages_after at hm
  rw [hsent] at hm
  revert hm
  split
  · intro hm; cases hm
  · split
    · intro hm; exact List.mem_of_mem_filter hm
    · intro hm; cases hm

/-- A session with one queued message (event id 1), about to open a
stream. -/
def sessionA : MCPSession := (MCPSession.fresh "S" 0).queue_message "A" none 1

/-- `sessionA` after a stream opened (the connection event consumed event
id 2) and one more message was queued (event id 3): its log skips id 2. -/
def sessionAfterStream : MCPSession :=
  ((sessionA.streamHead none).2).queue_message "B" none 2

/-- Witness for C10: after queue, stream open, queue, the log ids are
`["1", "3"]` (non-contiguous, id 2 went to the connection event), and a
message returned by replay on the post-open session was already in the
pre-open log. -/
theorem c10_connection_event_not_logged_witness :
    (sessionAfterStream.messages_sent.map MCPMessage.id = ["1", "3"])
    ∧ ({ id := "1", data := "A", event := none } : MCPMessage)
        ∈ sessionA.messages_sent :=
  ⟨rfl,
   (c10_connection_event_not_logged sessionA none).2.2 "0"
     { id := "1", data := "A", event := none } (by decide)⟩
